import Mathlib

/-!
Verification of the AMM flow-toxicity fade engine against its source.

The Python modules `price_impact.py`, `flow_detector.py`,
`position_sizing.py`, `signal_generator.py`, `position_manager.py`,
`utils.py` and the field-coercion part of `bitquery.py` are embedded
shallowly: Python floats are modelled as exact rationals, dictionaries of
event fields as structures with `Option` fields (`none` models an absent
key, so `dict.get(key, default)` becomes `Option.getD`), and the two
module-global dictionaries (`pool_event_history`, `active_positions`) as
explicit state threaded through the functions that read or write them.
-/

namespace AmmFade

/-- Swap direction, the strings `'AtoB'` / `'BtoA'` in the source. -/
inductive Direction where
  | AtoB
  | BtoA
deriving DecidableEq

/-- A Python value as it may appear in a decoded event field: an `int`, a
`float` (modelled as an exact rational), or a `str`. -/
inductive PyVal where
  | int (n : Int)
  | float (q : ℚ)
  | str (s : String)
deriving DecidableEq

/-- Membership in the Python character set `0123456789abcdefABCDEF` used by
the all-hex-digits test of `safe_to_numeric`. -/
def isPyHexDigit (c : Char) : Bool :=
  (('0' ≤ c) && (c ≤ '9')) || (('a' ≤ c) && (c ≤ 'f')) || (('A' ≤ c) && (c ≤ 'F'))

/-- Numeric value of one hexadecimal digit. -/
def hexDigitVal (c : Char) : Nat :=
  if ('0' ≤ c) && (c ≤ '9') then c.toNat - '0'.toNat
  else if ('a' ≤ c) && (c ≤ 'f') then c.toNat - 'a'.toNat + 10
  else c.toNat - 'A'.toNat + 10

/-- Value of a string of hexadecimal digits. -/
def hexDigitsVal (cs : List Char) : Nat :=
  cs.foldl (fun n c => 16 * n + hexDigitVal c) 0

/-- Value of a string of decimal digits (the empty string counts as 0, as in
a Python float literal such as `"5."`). -/
def decDigitsVal (cs : List Char) : Nat :=
  cs.foldl (fun n c => 10 * n + (c.toNat - '0'.toNat)) 0

/-- Strip one leading sign character; `true` means negative. -/
def stripSign : List Char → Bool × List Char
  | '-' :: cs => (true, cs)
  | '+' :: cs => (false, cs)
  | cs => (false, cs)

/-- Strip one leading `0x` / `0X` marker. -/
def stripHexMark : List Char → List Char
  | '0' :: 'x' :: cs => cs
  | '0' :: 'X' :: cs => cs
  | cs => cs

/-- Model of Python `int(s, 16)` on the strings this pipeline sees: an
optional sign, an optional `0x`/`0X` marker, then nonempty hexadecimal
digits (surrounding whitespace and digit-grouping underscores are not
modelled; no field in this pipeline carries them). -/
def pyIntBase16 (s : String) : Option Int :=
  let sign := stripSign s.data
  let ds := stripHexMark sign.2
  if ds.isEmpty then none
  else if ds.all isPyHexDigit then
    some (if sign.1 then -(hexDigitsVal ds : Int) else (hexDigitsVal ds : Int))
  else none

/-- Model of Python `int(s)`: an optional sign then nonempty decimal digits. -/
def pyInt (s : String) : Option Int :=
  let sign := stripSign s.data
  if sign.2.isEmpty then none
  else if sign.2.all Char.isDigit then
    some (if sign.1 then -(decDigitsVal sign.2 : Int) else (decDigitsVal sign.2 : Int))
  else none

/-- Magnitude part of a Python float literal: decimal digits with at most one
decimal point and at least one digit in total (exponents, `inf` and `nan` are
not modelled; no field in this pipeline carries them). -/
def pyFloatMag (cs : List Char) : Option ℚ :=
  let ip := cs.takeWhile (fun c => c != '.')
  match cs.dropWhile (fun c => c != '.') with
  | [] =>
    if ip.isEmpty then none
    else if ip.all Char.isDigit then some (decDigitsVal ip : ℚ) else none
  | _ :: fp =>
    if ip.isEmpty && fp.isEmpty then none
    else if ip.all Char.isDigit && fp.all Char.isDigit then
      some ((decDigitsVal ip : ℚ) + (decDigitsVal fp : ℚ) / (10 : ℚ) ^ fp.length)
    else none

/-- Model of Python `float(s)` (see `pyFloatMag`). -/
def pyFloat (s : String) : Option ℚ :=
  let sign := stripSign s.data
  (pyFloatMag sign.2).map (fun q => if sign.1 then -q else q)

/-- Python `'.' in s`. -/
def containsDot (s : String) : Bool :=
  s.data.any (fun c => c == '.')

/-- Python `s.startswith('0x')`. -/
def startsWith0x (s : String) : Bool :=
  match s.data with
  | '0' :: 'x' :: _ => true
  | _ => false

/-- Embedding of `utils.safe_to_numeric`: ints and floats pass through; a
string is first tried as a hexadecimal integer when it starts with `0x` or
consists of hex digits, then as a decimal int (or float when it contains a
dot); when every attempt fails the Python code returns 0. -/
def safe_to_numeric : PyVal → ℚ
  | .int n => (n : ℚ)
  | .float q => q
  | .str s =>
    let hexTry : Option Int :=
      if startsWith0x s || (!s.data.isEmpty && s.data.all isPyHexDigit) then
        pyIntBase16 s
      else none
    match hexTry with
    | some n => (n : ℚ)
    | none =>
      if containsDot s then
        match pyFloat s with
        | some q => q
        | none => 0
      else
        match pyInt s with
        | some n => (n : ℚ)
        | none => 0

/-- The per-string-value branch of `bitquery.convert_hex_to_int` for a field
in the hex-first class (`Number, BaseFee, ..., MaxAmountIn, AmountCurrencyA,
AmountCurrencyB`): try a hexadecimal integer parse, then decimal (float when
the string contains a dot, else int), and on total failure keep the string. -/
def convertHexFirstField (s : String) : PyVal :=
  match pyIntBase16 s with
  | some n => .int n
  | none =>
    if containsDot s then
      match pyFloat s with
      | some q => .float q
      | none => .str s
    else
      match pyInt s with
      | some n => .int n
      | none => .str s

/-- The per-string-value branch of `bitquery.convert_hex_to_int` for a field
in the decimal-first class (`SlippageBasisPoints, Price, AtoBPrice,
BtoAPrice`): try a decimal parse first (float when the string contains a dot,
else int), fall back to a hexadecimal integer, and on total failure keep the
string. -/
def convertDecimalFirstField (s : String) : PyVal :=
  if containsDot s then
    match pyFloat s with
    | some q => .float q
    | none =>
      match pyIntBase16 s with
      | some n => .int n
      | none => .str s
  else
    match pyInt s with
    | some n => .int n
    | none =>
      match pyIntBase16 s with
      | some n => .int n
      | none => .str s

/-! Configuration constants from `strategy_config.py`. -/

def MIN_IMPACT_BASIS_POINTS : ℚ := 50

def MAX_IMPACT_BASIS_POINTS : ℚ := 500

def MIN_LIQUIDITY_RATIO : ℚ := 0.1

def WAIT_TIME_SECONDS : ℚ := 2

def MAX_POSITION_SIZE_RATIO : ℚ := 0.05

def MIN_POSITION_SIZE : ℚ := 0.01

def STOP_LOSS_BASIS_POINTS : ℚ := 100

def TAKE_PROFIT_BASIS_POINTS : ℚ := 50

def FLOW_DETECTION_WINDOW_SECONDS : Int := 30

def MAX_SAME_DIRECTION_EVENTS : Nat := 1

/-! Data model: decoded pool events. An `Option` field set to `none` models
an absent dictionary key; `Pool.empty` and friends model the `{}` defaults of
the source's `dict.get(key, {})` calls. -/

/-- A currency entry of a pool (`Symbol`, `Decimals`). -/
structure Currency where
  Symbol : Option String
  Decimals : Option Int
deriving DecidableEq

def Currency.empty : Currency := { Symbol := none, Decimals := none }

/-- The `Pool` sub-dictionary of an event. -/
structure Pool where
  PoolId : Option String
  SmartContract : Option String
  CurrencyA : Option Currency
  CurrencyB : Option Currency
deriving DecidableEq

def Pool.empty : Pool :=
  { PoolId := none, SmartContract := none, CurrencyA := none, CurrencyB := none }

/-- The `Liquidity` sub-dictionary; the amounts may arrive as any decoded
value, hence `PyVal`. -/
structure Liquidity where
  AmountCurrencyA : Option PyVal
  AmountCurrencyB : Option PyVal
deriving DecidableEq

def Liquidity.empty : Liquidity := { AmountCurrencyA := none, AmountCurrencyB := none }

/-- One slippage tier of the price table. -/
structure Tier where
  SlippageBasisPoints : Option PyVal
  MaxAmountIn : Option PyVal
  Price : Option PyVal
deriving DecidableEq

/-- The `PoolPriceTable` sub-dictionary: a tier list and a mid price per
direction. -/
structure PriceTable where
  AtoBPrices : List Tier
  BtoAPrices : List Tier
  AtoBPrice : Option PyVal
  BtoAPrice : Option PyVal
deriving DecidableEq

/-- The `TransactionHeader` sub-dictionary. -/
structure TransactionHeader where
  Time : Option Int
deriving DecidableEq

def TransactionHeader.empty : TransactionHeader := { Time := none }

/-- A decoded pool event. `PoolPriceTable = none` models a missing or falsy
(empty) price table, the case caught by `if not pool_price_table`. -/
structure PoolEvent where
  Pool : Option Pool
  Liquidity : Option Liquidity
  PoolPriceTable : Option PriceTable
  TransactionHeader : Option TransactionHeader
deriving DecidableEq

/-- `pool_event.get('Pool', {}).get('PoolId', '')`. -/
def poolId (e : PoolEvent) : String :=
  (e.Pool.getD Pool.empty).PoolId.getD ""

/-- Embedding of `utils.get_currency_decimals`: the `Decimals` field of the
selected currency, default 18. -/
def get_currency_decimals (e : PoolEvent) (currency : Char) : Int :=
  let pool := e.Pool.getD Pool.empty
  let currency_obj :=
    if currency = 'A' then pool.CurrencyA.getD Currency.empty
    else pool.CurrencyB.getD Currency.empty
  currency_obj.Decimals.getD 18

/-- Coerced reserve of currency A:
`safe_to_numeric(liquidity.get('AmountCurrencyA', 0))`. -/
def amountA (e : PoolEvent) : ℚ :=
  safe_to_numeric ((e.Liquidity.getD Liquidity.empty).AmountCurrencyA.getD (.int 0))

/-- Coerced reserve of currency B. -/
def amountB (e : PoolEvent) : ℚ :=
  safe_to_numeric ((e.Liquidity.getD Liquidity.empty).AmountCurrencyB.getD (.int 0))

/-- The tier list `pool_price_table.get(direction + 'Prices', [])`. -/
def PriceTable.tiers (t : PriceTable) : Direction → List Tier
  | .AtoB => t.AtoBPrices
  | .BtoA => t.BtoAPrices

/-- The raw mid price `pool_price_table.get(direction + 'Price', 1.0)`. -/
def PriceTable.midRaw (t : PriceTable) : Direction → PyVal
  | .AtoB => t.AtoBPrice.getD (.float 1)
  | .BtoA => t.BtoAPrice.getD (.float 1)

/-- The coerced mid price of a direction. -/
def PriceTable.mid (t : PriceTable) (d : Direction) : ℚ :=
  safe_to_numeric (t.midRaw d)

/-- `safe_to_numeric(tier.get('SlippageBasisPoints', 0))`. -/
def Tier.slippage (tier : Tier) : ℚ :=
  safe_to_numeric (tier.SlippageBasisPoints.getD (.int 0))

/-- `safe_to_numeric(tier.get('MaxAmountIn', 0))`. -/
def Tier.maxIn (tier : Tier) : ℚ :=
  safe_to_numeric (tier.MaxAmountIn.getD (.int 0))

/-- `safe_to_numeric(tier.get('Price', 1.0))`. -/
def Tier.price (tier : Tier) : ℚ :=
  safe_to_numeric (tier.Price.getD (.float 1))

/-- The scanning loop of `price_impact._check_direction`, over an explicit
tier list (already reversed, so the head is the largest swap size). -/
def check_direction_go (t : PriceTable) (direction : Direction)
    (amount_a amount_b : ℚ) : List Tier → Option (ℚ × Direction × ℚ)
  | [] => none
  | tier :: rest =>
    if ¬ ( MIN_IMPACT_BASIS_POINTS ≤ tier.slippage ∧
           tier.slippage ≤ MAX_IMPACT_BASIS_POINTS) then
      check_direction_go t direction amount_a amount_b rest
    else
      let mid_price := t.mid direction
      if mid_price = 0 then check_direction_go t direction amount_a amount_b rest
      else
        let impact := |1 - tier.price / mid_price| * 10000
        let base_liquidity := if direction = .AtoB then amount_a else amount_b
        let lrat := if base_liquidity > 0 then tier.maxIn / base_liquidity else 0
        if lrat ≥ MIN_LIQUIDITY_RATIO then some (impact, direction, tier.maxIn)
        else check_direction_go t direction amount_a amount_b rest

/-- Embedding of `price_impact._check_direction`: scan the direction's tier
list from the end (largest swaps) backward. -/
def check_direction (t : PriceTable) (direction : Direction)
    (amount_a amount_b : ℚ) : Option (ℚ × Direction × ℚ) :=
  let price_tiers := t.tiers direction
  if price_tiers.isEmpty then none
  else check_direction_go t direction amount_a amount_b price_tiers.reverse

/-- Embedding of `price_impact.calculate_price_impact`. -/
def calculate_price_impact (e : PoolEvent) : Option (ℚ × Direction × ℚ) :=
  match e.PoolPriceTable with
  | none => none
  | some t =>
    if amountA e = 0 ∨ amountB e = 0 then none
    else
      match check_direction t .AtoB (amountA e) (amountB e) with
      | some impact => some impact
      | none => check_direction t .BtoA (amountA e) (amountB e)

/-- Reserve of the currency being bought under the fade direction (a `BtoA`
fade buys A, an `AtoB` fade buys B), as read by
`position_sizing.calculate_position_size`. -/
def fadeBaseLiquidity (e : PoolEvent) (fade_direction : Direction) : ℚ :=
  if fade_direction = .BtoA then amountA e else amountB e

/-- Decimals of the currency being bought under the fade direction. -/
def fadeDecimals (e : PoolEvent) (fade_direction : Direction) : Int :=
  if fade_direction = .BtoA then get_currency_decimals e 'A'
  else get_currency_decimals e 'B'

/-- Embedding of `position_sizing.calculate_position_size`. -/
def calculate_position_size (e : PoolEvent) (impact_bp : ℚ)
    (fade_direction : Direction) : ℚ :=
  let base_liquidity := fadeBaseLiquidity e fade_direction
  let decimals := fadeDecimals e fade_direction
  if base_liquidity = 0 then 0
  else
    let impact_factor := max 0.1 (1 / (1 + impact_bp / 1000))
    let position_size_raw := base_liquidity * MAX_POSITION_SIZE_RATIO * impact_factor
    let min_position_size_raw := MIN_POSITION_SIZE * (10 : ℚ) ^ decimals
    max position_size_raw min_position_size_raw

/-! Python dictionaries keyed by pool id, modelled as association lists
(`dinsert` replaces the value at an existing key and appends a new key at
the end, matching `d[k] = v`). -/

/-- Dictionary lookup, `d.get(k)` / `k in d`. -/
def dlookup {α : Type} : List (String × α) → String → Option α
  | [], _ => none
  | (k, v) :: rest, key => if key = k then some v else dlookup rest key

/-- Dictionary write `d[k] = v`. -/
def dinsert {α : Type} : List (String × α) → String → α → List (String × α)
  | [], key, v => [(key, v)]
  | (k, w) :: rest, key, v =>
    if key = k then (k, v) :: rest else (k, w) :: dinsert rest key v

/-- Keep the last `n` elements of a list — the content of a
`deque(maxlen=n)` after appending the elements in order. -/
def takeLast {α : Type} (n : Nat) (l : List α) : List α :=
  l.drop (l.length - n)

/-- One retained flow observation (`{'direction': ..., 'time': ...}`). -/
structure FlowRecord where
  direction : Direction
  time : Int
deriving DecidableEq

/-- The module-global `flow_detector.pool_event_history` dictionary. -/
abbrev FlowHistory := List (String × List FlowRecord)

/-- Embedding of `flow_detector.is_isolated_shock`, with the module-global
`pool_event_history` passed in and the updated history returned alongside
the verdict. A missing pool key is initialised to an empty deque; records
whose age reaches the detection window are pruned; the verdict compares the
same-direction count of the remaining records against
`MAX_SAME_DIRECTION_EVENTS`; the current record is appended afterwards,
trimmed to the deque capacity 10. -/
def is_isolated_shock (hist : FlowHistory) (pool_id : String)
    (direction : Direction) (current_time : Int) : Bool × FlowHistory :=
  let history := (dlookup hist pool_id).getD []
  let recent_events := history.filter
    (fun ev => decide (current_time - ev.time < FLOW_DETECTION_WINDOW_SECONDS))
  let same_direction_count :=
    (recent_events.filter (fun ev => decide (ev.direction = direction))).length
  let new_history :=
    takeLast 10 (recent_events ++ [{ direction := direction, time := current_time }])
  (decide (same_direction_count ≤ MAX_SAME_DIRECTION_EVENTS),
    dinsert hist pool_id new_history)

/-- A signal / position record as built by `create_fade_signal` (statuses
are the strings `"pending"` / `"entered"` exactly as in the source). -/
structure Signal where
  pool_id : String
  pool_address : String
  currency_a : String
  currency_b : String
  swap_direction : Direction
  fade_direction : Direction
  impact_basis_points : ℚ
  swap_size : ℚ
  swap_size_decimals : Int
  position_size : ℚ
  position_size_decimals : Int
  entry_time : ℚ
  stop_loss_bp : ℚ
  take_profit_bp : ℚ
  status : String
deriving DecidableEq

/-- The two module-global dictionaries of `signal_generator` and
`flow_detector`, threaded explicitly. -/
structure StrategyState where
  pool_event_history : FlowHistory
  active_positions : List (String × Signal)
deriving DecidableEq

/-- `tx_header.get('Time', 0) // 1_000_000_000` — nanoseconds to seconds by
Python floor division. -/
def eventTimeSeconds (e : PoolEvent) : Int :=
  Int.fdiv ((e.TransactionHeader.getD TransactionHeader.empty).Time.getD 0) 1000000000

/-- Embedding of `signal_generator.should_fade`: veto on an empty pool id,
on a persistent-flow verdict, and on an existing active position. The flow
history is mutated by the embedded `is_isolated_shock` call in every path
that reaches it. -/
def should_fade (st : StrategyState) (e : PoolEvent)
    (impact_data : ℚ × Direction × ℚ) : Bool × StrategyState :=
  let direction := impact_data.2.1
  let pool_id := poolId e
  if pool_id = "" then (false, st)
  else
    let event_time := eventTimeSeconds e
    let iso := is_isolated_shock st.pool_event_history pool_id direction event_time
    let st1 := { st with pool_event_history := iso.2 }
    if !iso.1 then (false, st1)
    else if (dlookup st1.active_positions pool_id).isSome then (false, st1)
    else (true, st1)

/-- Embedding of `signal_generator.create_fade_signal`; `now` models
`time.time()` at signal creation. -/
def create_fade_signal (now : ℚ) (e : PoolEvent)
    (impact_data : ℚ × Direction × ℚ) : Signal :=
  let impact_bp := impact_data.1
  let direction := impact_data.2.1
  let swap_size := impact_data.2.2
  let pool := e.Pool.getD Pool.empty
  let currency_a := pool.CurrencyA.getD Currency.empty
  let currency_b := pool.CurrencyB.getD Currency.empty
  let fade_direction := if direction = .AtoB then Direction.BtoA else Direction.AtoB
  let position_size := calculate_position_size e impact_bp fade_direction
  let decimals_a := get_currency_decimals e 'A'
  let decimals_b := get_currency_decimals e 'B'
  { pool_id := pool.PoolId.getD ""
    pool_address := pool.SmartContract.getD ""
    currency_a := currency_a.Symbol.getD ""
    currency_b := currency_b.Symbol.getD ""
    swap_direction := direction
    fade_direction := fade_direction
    impact_basis_points := impact_bp
    swap_size := swap_size
    swap_size_decimals := if direction = .AtoB then decimals_a else decimals_b
    position_size := position_size
    position_size_decimals := if fade_direction = .BtoA then decimals_a else decimals_b
    entry_time := now + WAIT_TIME_SECONDS
    stop_loss_bp := STOP_LOSS_BASIS_POINTS
    take_profit_bp := TAKE_PROFIT_BASIS_POINTS
    status := "pending" }

/-- Embedding of `signal_generator.add_position`. -/
def add_position (active : List (String × Signal)) (pool_id : String)
    (signal : Signal) : List (String × Signal) :=
  dinsert active pool_id signal

/-- Embedding of `signal_generator.has_position`. -/
def has_position (active : List (String × Signal)) (pool_id : String) : Bool :=
  (dlookup active pool_id).isSome

/-- Embedding of `position_manager.monitor_positions`; `now` models
`time.time()` and the registry of active positions is passed and returned
explicitly (the Python code mutates the stored position dict in place, which
the returned registry reflects). -/
def monitor_positions (now : ℚ) (active : List (String × Signal))
    (current_pool_state : PoolEvent) : List (String × Signal) :=
  let pool_id := poolId current_pool_state
  match dlookup active pool_id with
  | none => active
  | some position =>
    if now < position.entry_time then active
    else if position.status = "pending" then
      dinsert active pool_id { position with status := "entered" }
    else active

/-- Embedding of the signal-producing path of `strategy.process_pool_event`:
price impact, the `should_fade` decision, and on success
`create_fade_signal` followed by `add_position`. -/
def process_pool_event (now : ℚ) (st : StrategyState) (e : PoolEvent) :
    Option Signal × StrategyState :=
  if poolId e = "" then (none, st)
  else
    match calculate_price_impact e with
    | none => (none, st)
    | some impact_data =>
      let r := should_fade st e impact_data
      if r.1 then
        let signal := create_fade_signal now e impact_data
        (some signal,
          { r.2 with active_positions := add_position r.2.active_positions (poolId e) signal })
      else (none, r.2)

/-! Spec-side definitions, written from the claims' words, for comparison
with the source-derived functions above. -/

/-- The claim's slippage-band test: `SlippageBasisPoints` within the
inclusive band. -/
def bandFilter : Tier → Bool :=
  fun tier => decide ( MIN_IMPACT_BASIS_POINTS ≤ tier.slippage ∧
                       tier.slippage ≤ MAX_IMPACT_BASIS_POINTS)

/-- The claim's liquidity test: `MaxAmountIn` over the sold-side reserve is
at least MIN_LIQUIDITY_RATIO. -/
def ratioAccept (reserve : ℚ) : Tier → Bool :=
  fun tier => decide ( MIN_LIQUIDITY_RATIO ≤ tier.maxIn / reserve)

/-- Follows the claim's words (C1): scanning a direction's tier list from
the last tier backward, skip tiers whose slippage lies outside the inclusive
band, and return for the first remaining tier whose `MaxAmountIn` over the
sold-side reserve is at least MIN_LIQUIDITY_RATIO the triple
`(|1 - price / mid| * 10000, direction, MaxAmountIn)`. -/
def specDirectionResult (t : PriceTable) (direction : Direction)
    (reserve : ℚ) : Option (ℚ × Direction × ℚ) :=
  match ((t.tiers direction).reverse.filter bandFilter).find? (ratioAccept reserve) with
  | some tier => some (|1 - tier.price / t.mid direction| * 10000, direction, tier.maxIn)
  | none => none

/-- A tier is qualifying in the sense of claim C7's parenthetical: slippage
within the inclusive band and liquidity ratio at least MIN_LIQUIDITY_RATIO
(the ratio being `MaxAmountIn` over the sold-side reserve). -/
def claimQualifying (tier : Tier) (reserve : ℚ) : Prop :=
  MIN_IMPACT_BASIS_POINTS ≤ tier.slippage ∧
  tier.slippage ≤ MAX_IMPACT_BASIS_POINTS ∧
  MIN_LIQUIDITY_RATIO ≤ tier.maxIn / reserve

instance (tier : Tier) (reserve : ℚ) : Decidable (claimQualifying tier reserve) :=
  inferInstanceAs (Decidable (_ ∧ _ ∧ _))

/-- Follows the claim's words (C4): the number of retained records of the
pool whose direction equals the current direction and whose age relative to
`t` is within the detection window. -/
def specSameDirectionCount (hist : FlowHistory) (pool_id : String)
    (direction : Direction) (t : Int) : Nat :=
  (((dlookup hist pool_id).getD []).filter
    (fun ev => decide (ev.direction = direction) &&
               decide (t - ev.time < FLOW_DETECTION_WINDOW_SECONDS))).length

/-! Concrete events used by the scenario parts of the claims and by the
witnesses and counterexamples. -/

/-- The tier of the spec's end-to-end scenario:
`{SlippageBasisPoints: 80, MaxAmountIn: 50, Price: 0.95}`. -/
def c1_tier : Tier :=
  { SlippageBasisPoints := some (.int 80)
    MaxAmountIn := some (.int 50)
    Price := some (.float 0.95) }

/-- Price table of the spec's end-to-end scenario (`AtoBPrice: 1.00`). -/
def c1_table : PriceTable :=
  { AtoBPrices := [c1_tier]
    BtoAPrices := []
    AtoBPrice := some (.float 1)
    BtoAPrice := none }

/-- Event of the spec's end-to-end scenario: `amountA 400` (a nonzero
`amountB` is required for the pipeline to reach the tier scan at all). -/
def c1_event : PoolEvent :=
  { Pool := none
    Liquidity := some { AmountCurrencyA := some (.int 400),
                        AmountCurrencyB := some (.int 400) }
    PoolPriceTable := some c1_table
    TransactionHeader := none }

/-- A tier that is qualifying in claim C7's sense in both directions of the
counterexample event: slippage 100 within the band, `MaxAmountIn` 100
against reserves of 100 giving ratio 1. -/
def c7_tier : Tier :=
  { SlippageBasisPoints := some (.int 100)
    MaxAmountIn := some (.int 100)
    Price := some (.float 0.9) }

/-- Price table whose AtoB mid price coerces to 0. -/
def c7_table : PriceTable :=
  { AtoBPrices := [c7_tier]
    BtoAPrices := [c7_tier]
    AtoBPrice := some (.int 0)
    BtoAPrice := some (.float 1) }

def c7_event : PoolEvent :=
  { Pool := none
    Liquidity := some { AmountCurrencyA := some (.int 100),
                        AmountCurrencyB := some (.int 100) }
    PoolPriceTable := some c7_table
    TransactionHeader := none }

/-- Price table with qualifying tiers in both directions and nonzero mid
prices, for the C7 amended witness. -/
def c7w_table : PriceTable :=
  { AtoBPrices := [c7_tier]
    BtoAPrices := [c7_tier]
    AtoBPrice := some (.float 1)
    BtoAPrice := some (.float 1) }

def c7w_event : PoolEvent :=
  { Pool := none
    Liquidity := some { AmountCurrencyA := some (.int 100),
                        AmountCurrencyB := some (.int 100) }
    PoolPriceTable := some c7w_table
    TransactionHeader := none }

def c8_event : PoolEvent :=
  { Pool := none, Liquidity := none, PoolPriceTable := none, TransactionHeader := none }

/-- Event whose reserves coerce to 0 on both sides. -/
def c5_event : PoolEvent :=
  { Pool := none
    Liquidity := some { AmountCurrencyA := some (.int 0),
                        AmountCurrencyB := some (.int 0) }
    PoolPriceTable := none
    TransactionHeader := none }

/-- A registered position for pool "p", used by the registry-veto and
monitor witnesses. -/
def c2_signal : Signal :=
  { pool_id := "p"
    pool_address := ""
    currency_a := ""
    currency_b := ""
    swap_direction := Direction.AtoB
    fade_direction := Direction.BtoA
    impact_basis_points := 100
    swap_size := 50
    swap_size_decimals := 18
    position_size := 1
    position_size_decimals := 18
    entry_time := 2
    stop_loss_bp := 100
    take_profit_bp := 50
    status := "pending" }

/-- An event for pool "p" that would qualify for a signal (scenario table
and nonzero reserves) were the registry empty. -/
def c2_pool_event : PoolEvent :=
  { Pool := some { PoolId := some "p", SmartContract := none,
                   CurrencyA := none, CurrencyB := none }
    Liquidity := some { AmountCurrencyA := some (.int 400),
                        AmountCurrencyB := some (.int 400) }
    PoolPriceTable := some c1_table
    TransactionHeader := none }

/-- A state whose registry already holds a position for pool "p". -/
def c2_state : StrategyState :=
  { pool_event_history := []
    active_positions := [("p", c2_signal)] }

/-- A pending position whose entry time has passed by time 10. -/
def c3_signal : Signal :=
  { pool_id := "p"
    pool_address := ""
    currency_a := ""
    currency_b := ""
    swap_direction := Direction.AtoB
    fade_direction := Direction.BtoA
    impact_basis_points := 100
    swap_size := 50
    swap_size_decimals := 18
    position_size := 1
    position_size_decimals := 18
    entry_time := 5
    stop_loss_bp := 100
    take_profit_bp := 50
    status := "pending" }

/-- A pool state for pool "p" as consumed by `monitor_positions`. -/
def c3_event : PoolEvent :=
  { Pool := some { PoolId := some "p", SmartContract := none,
                   CurrencyA := none, CurrencyB := none }
    Liquidity := none
    PoolPriceTable := none
    TransactionHeader := none }

/-! Helper lemmas (shared across the claim theorems). -/

theorem AtoB_ne_BtoA : Direction.AtoB ≠ Direction.BtoA := by decide

theorem BtoA_ne_AtoB : Direction.BtoA ≠ Direction.AtoB := by decide

theorem dlookup_dinsert {α : Type} (m : List (String × α)) (key k : String) (v : α) :
    dlookup (dinsert m key v) k = if k = key then some v else dlookup m k := by
  induction m with
  | nil =>
    by_cases h : k = key <;> simp [dinsert, dlookup, h]
  | cons hd tl ih =>
    obtain ⟨k0, w⟩ := hd
    by_cases h1 : key = k0
    · subst h1
      by_cases h2 : k = key <;> simp [dinsert, dlookup, h2]
    · by_cases h2 : k = k0
      · subst h2
        have h3 : ¬ k = key := fun h => h1 h.symm
        simp [dinsert, h1, dlookup, h3]
      · simp [dinsert, h1, dlookup, h2, ih]

theorem takeLast_append_singleton {α : Type} {n : Nat} (hn : 0 < n)
    (l : List α) (x : α) :
    ∃ pre, takeLast n (l ++ [x]) = pre ++ [x] := by
  refine ⟨l.drop (l.length + 1 - n), ?_⟩
  unfold takeLast
  have hlen : (l ++ [x]).length = l.length + 1 := by simp
  rw [hlen, List.drop_append_of_le_length (by omega)]

theorem should_fade_active_unchanged (st : StrategyState) (e : PoolEvent)
    (i : ℚ × Direction × ℚ) :
    (should_fade st e i).2.active_positions = st.active_positions := by
  by_cases h : poolId e = ""
  · simp [should_fade, h]
  · by_cases h2 : (is_isolated_shock st.pool_event_history (poolId e) i.2.1
        (eventTimeSeconds e)).1
    · by_cases h3 : (dlookup st.active_positions (poolId e)).isSome <;>
        simp [should_fade, h, h2, h3]
    · simp [should_fade, h, h2]

theorem check_direction_go_mid_zero (t : PriceTable) (d : Direction)
    (a b : ℚ) (hmid : t.mid d = 0) :
    ∀ l : List Tier, check_direction_go t d a b l = none := by
  intro l
  induction l with
  | nil => simp [check_direction_go]
  | cons tier rest ih =>
    by_cases hband : MIN_IMPACT_BASIS_POINTS ≤ tier.slippage ∧
        tier.slippage ≤ MAX_IMPACT_BASIS_POINTS <;>
      simp [check_direction_go, hband, hmid, ih]

theorem check_direction_go_eq_find (t : PriceTable) (d : Direction) (a b : ℚ)
    (hmid : t.mid d ≠ 0) (hbase : 0 < (if d = .AtoB then a else b)) :
    ∀ l : List Tier,
      check_direction_go t d a b l =
        match (l.filter bandFilter).find? (ratioAccept (if d = .AtoB then a else b)) with
        | some tier => some (|1 - tier.price / t.mid d| * 10000, d, tier.maxIn)
        | none => none := by
  intro l
  induction l with
  | nil => simp [check_direction_go]
  | cons tier rest ih =>
    by_cases hband : MIN_IMPACT_BASIS_POINTS ≤ tier.slippage ∧
        tier.slippage ≤ MAX_IMPACT_BASIS_POINTS
    · by_cases hacc : MIN_LIQUIDITY_RATIO ≤ tier.maxIn / (if d = .AtoB then a else b)
      · simp [check_direction_go, hband, hmid, hbase, hacc, List.filter_cons,
          List.find?_cons, ge_iff_le, bandFilter, ratioAccept]
      · simp [check_direction_go, hband, hmid, hbase, hacc, List.filter_cons,
          List.find?_cons, ge_iff_le, bandFilter, ratioAccept, ih]
    · simp [check_direction_go, hband, List.filter_cons, bandFilter, ratioAccept, ih]

theorem check_direction_eq_spec (t : PriceTable) (d : Direction) (a b : ℚ)
    (hmid : t.mid d ≠ 0) (hbase : 0 < (if d = .AtoB then a else b)) :
    check_direction t d a b = specDirectionResult t d (if d = .AtoB then a else b) := by
  unfold check_direction specDirectionResult
  by_cases h : (t.tiers d).isEmpty
  · rw [List.isEmpty_iff] at h
    simp [h]
  · simp only [h, if_false, ite_false, Bool.false_eq_true]
    rw [check_direction_go_eq_find t d a b hmid hbase]

theorem safe_to_numeric_unparseable (s : String) (h16 : pyIntBase16 s = none)
    (hd : pyInt s = none) (hf : pyFloat s = none) :
    safe_to_numeric (.str s) = 0 := by
  by_cases hc : startsWith0x s || (!s.data.isEmpty && s.data.all isPyHexDigit) <;>
    by_cases hdot : containsDot s <;>
      simp [safe_to_numeric, hc, hdot, h16, hd, hf]

theorem qualifying_reserve_pos {tier : Tier} {reserve : ℚ}
    (h : claimQualifying tier reserve) (hr : 0 ≤ reserve) : 0 < reserve := by
  rcases lt_or_eq_of_le hr with hlt | heq
  · exact hlt
  · exfalso
    obtain ⟨_, _, h3⟩ := h
    rw [← heq, div_zero] at h3
    norm_num [ MIN_LIQUIDITY_RATIO] at h3

theorem specDirectionResult_qualifying (t : PriceTable) (d : Direction)
    (reserve : ℚ) (h : ∃ tier ∈ t.tiers d, claimQualifying tier reserve) :
    ∃ i s, specDirectionResult t d reserve = some (i, d, s) := by
  obtain ⟨tier, hmem, hq⟩ := h
  have hfs : (((t.tiers d).reverse.filter bandFilter).find? (ratioAccept reserve)).isSome := by
    rw [List.find?_isSome]
    refine ⟨tier, ?_, ?_⟩
    · rw [List.mem_filter, List.mem_reverse]
      exact ⟨hmem, by simp [bandFilter, hq.1, hq.2.1]⟩
    · simp [ratioAccept, hq.2.2]
  rw [Option.isSome_iff_exists] at hfs
  obtain ⟨tier0, hfind⟩ := hfs
  exact ⟨_, _, by unfold specDirectionResult; rw [hfind]⟩

/-! Claim theorems. -/

/-- C1: for every pool event with a present price table, nonzero coerced
reserves on both sides (non-negative per the spec's data model, hence
positive) and nonzero coerced direction mid prices (as presupposed by the
claim's division by the mid price), `calculate_price_impact` is exactly the
scan the claim describes, AtoB tried first: per direction, walk the tier
list from the last tier backward, keep only tiers with slippage inside the
inclusive band, and return for the first kept tier with
`MaxAmountIn / sold-side reserve ≥ MIN_LIQUIDITY_RATIO` the triple
`(|1 - price / mid| * 10000, direction, MaxAmountIn)`. In particular the
claim's concrete scenario returns `(500, AtoB, 50)`. -/
theorem C1_tier_scan :
    (∀ (e : PoolEvent) (t : PriceTable), e.PoolPriceTable = some t →
      0 < amountA e → 0 < amountB e →
      t.mid .AtoB ≠ 0 → t.mid .BtoA ≠ 0 →
      calculate_price_impact e =
        (match specDirectionResult t .AtoB (amountA e) with
         | some r => some r
         | none => specDirectionResult t .BtoA (amountB e))) ∧
    calculate_price_impact c1_event = some (500, Direction.AtoB, 50) := by
  constructor
  · intro e t ht ha hb hma hmb
    have hA : check_direction t .AtoB (amountA e) (amountB e) =
        specDirectionResult t .AtoB (amountA e) := by
      simpa using check_direction_eq_spec t .AtoB (amountA e) (amountB e) hma
        (by simpa using ha)
    have hB : check_direction t .BtoA (amountA e) (amountB e) =
        specDirectionResult t .BtoA (amountB e) := by
      simpa using check_direction_eq_spec t .BtoA (amountA e) (amountB e) hmb
        (by simpa using hb)
    have hcond : ¬ (amountA e = 0 ∨ amountB e = 0) := by
      push_neg
      exact ⟨ne_of_gt ha, ne_of_gt hb⟩
    simp only [calculate_price_impact, ht, hcond, if_false, ite_false, hA, hB]
  · norm_num [calculate_price_impact, c1_event, c1_table, c1_tier, amountA, amountB,
      safe_to_numeric, check_direction, check_direction_go, PriceTable.tiers,
      Tier.slippage, Tier.maxIn, Tier.price, PriceTable.mid, PriceTable.midRaw,
      MIN_IMPACT_BASIS_POINTS, MAX_IMPACT_BASIS_POINTS, MIN_LIQUIDITY_RATIO, abs]

/-- Witness for C1: the general scan equation instantiated at the claim's
concrete scenario event, every hypothesis discharged by computation. -/
theorem C1_tier_scan_witness :
    calculate_price_impact c1_event =
      (match specDirectionResult c1_table .AtoB (amountA c1_event) with
       | some r => some r
       | none => specDirectionResult c1_table .BtoA (amountB c1_event)) :=
  C1_tier_scan.1 c1_event c1_table rfl
    (by norm_num [amountA, c1_event, safe_to_numeric])
    (by norm_num [amountB, c1_event, safe_to_numeric])
    (by norm_num [PriceTable.mid, PriceTable.midRaw, c1_table, safe_to_numeric])
    (by norm_num [PriceTable.mid, PriceTable.midRaw, c1_table, safe_to_numeric])

/-- C7 counterexample: both directions' tier lists contain a tier that is
qualifying exactly in the claim's sense (slippage within the band and
liquidity ratio at least MIN_LIQUIDITY_RATIO), yet `calculate_price_impact`
returns the BtoA result: the AtoB mid price coerces to 0, so the AtoB scan
skips every tier, which the claim's notion of qualifying does not cover. -/
theorem C7_counterexample :
    c7_tier ∈ c7_table.AtoBPrices ∧ c7_tier ∈ c7_table.BtoAPrices ∧
    claimQualifying c7_tier (amountA c7_event) ∧
    claimQualifying c7_tier (amountB c7_event) ∧
    calculate_price_impact c7_event = some (1000, Direction.BtoA, 100) := by
  refine ⟨by simp [c7_table], by simp [c7_table], ?_, ?_, ?_⟩
  · norm_num [claimQualifying, c7_tier, Tier.slippage, Tier.maxIn, safe_to_numeric,
      amountA, c7_event, MIN_IMPACT_BASIS_POINTS, MAX_IMPACT_BASIS_POINTS,
      MIN_LIQUIDITY_RATIO]
  · norm_num [claimQualifying, c7_tier, Tier.slippage, Tier.maxIn, safe_to_numeric,
      amountB, c7_event, MIN_IMPACT_BASIS_POINTS, MAX_IMPACT_BASIS_POINTS,
      MIN_LIQUIDITY_RATIO]
  · norm_num [calculate_price_impact, c7_event, c7_table, c7_tier, amountA, amountB,
      safe_to_numeric, check_direction, check_direction_go, PriceTable.tiers,
      Tier.slippage, Tier.maxIn, Tier.price, PriceTable.mid, PriceTable.midRaw,
      MIN_IMPACT_BASIS_POINTS, MAX_IMPACT_BASIS_POINTS, MIN_LIQUIDITY_RATIO, abs]

/-- C7 amended: whenever both tier lists contain a qualifying tier (slippage
within the band and liquidity ratio at least MIN_LIQUIDITY_RATIO), the
reserves are non-negative (the spec's data model) and additionally the AtoB
coerced mid price is nonzero, `calculate_price_impact` returns an AtoB
result, regardless of the relative impact magnitudes. -/
theorem C7_atob_preferred :
    ∀ (e : PoolEvent) (t : PriceTable), e.PoolPriceTable = some t →
      0 ≤ amountA e → 0 ≤ amountB e → t.mid .AtoB ≠ 0 →
      (∃ tier ∈ t.tiers .AtoB, claimQualifying tier (amountA e)) →
      (∃ tier ∈ t.tiers .BtoA, claimQualifying tier (amountB e)) →
      ∃ i s, calculate_price_impact e = some (i, Direction.AtoB, s) := by
  intro e t ht ha hb hmid hqa hqb
  have haPos : 0 < amountA e := by
    obtain ⟨tier, _, hq⟩ := hqa
    exact qualifying_reserve_pos hq ha
  have hbPos : 0 < amountB e := by
    obtain ⟨tier, _, hq⟩ := hqb
    exact qualifying_reserve_pos hq hb
  have hA : check_direction t .AtoB (amountA e) (amountB e) =
      specDirectionResult t .AtoB (amountA e) := by
    simpa using check_direction_eq_spec t .AtoB (amountA e) (amountB e) hmid
      (by simpa using haPos)
  obtain ⟨i, s, hspec⟩ := specDirectionResult_qualifying t .AtoB (amountA e) hqa
  refine ⟨i, s, ?_⟩
  have hcond : ¬ (amountA e = 0 ∨ amountB e = 0) := by
    push_neg
    exact ⟨ne_of_gt haPos, ne_of_gt hbPos⟩
  simp only [calculate_price_impact, ht, hcond, if_false, ite_false, hA, hspec]

/-- Witness for the amended C7 at a concrete event with qualifying tiers in
both directions. -/
theorem C7_atob_preferred_witness :
    ∃ i s, calculate_price_impact c7w_event = some (i, Direction.AtoB, s) :=
  C7_atob_preferred c7w_event c7w_table rfl
    (by norm_num [amountA, c7w_event, safe_to_numeric])
    (by norm_num [amountB, c7w_event, safe_to_numeric])
    (by norm_num [PriceTable.mid, PriceTable.midRaw, c7w_table, safe_to_numeric])
    (⟨c7_tier, by simp [c7w_table, PriceTable.tiers],
      by norm_num [claimQualifying, c7_tier, Tier.slippage, Tier.maxIn,
        safe_to_numeric, amountA, c7w_event, MIN_IMPACT_BASIS_POINTS,
        MAX_IMPACT_BASIS_POINTS, MIN_LIQUIDITY_RATIO]⟩)
    (⟨c7_tier, by simp [c7w_table, PriceTable.tiers],
      by norm_num [claimQualifying, c7_tier, Tier.slippage, Tier.maxIn,
        safe_to_numeric, amountB, c7w_event, MIN_IMPACT_BASIS_POINTS,
        MAX_IMPACT_BASIS_POINTS, MIN_LIQUIDITY_RATIO]⟩)

/-- C8: fail-soft behavior of the impact analyzer. A missing or empty price
table yields `none`; a zero coerced reserve on either side yields `none`; a
direction whose mid price coerces to 0 is skipped entirely (the direction
scan returns `none` instead of dividing by it); and a string no parse
attempt accepts coerces to 0 in `safe_to_numeric` (the embedding is a total
function on all events, mirroring that the Python core never raises). -/
theorem C8_fail_soft :
    (∀ e : PoolEvent, e.PoolPriceTable = none → calculate_price_impact e = none) ∧
    (∀ e : PoolEvent, amountA e = 0 ∨ amountB e = 0 → calculate_price_impact e = none) ∧
    (∀ (t : PriceTable) (d : Direction) (a b : ℚ), t.mid d = 0 →
      check_direction t d a b = none) ∧
    (∀ s : String, pyIntBase16 s = none → pyInt s = none → pyFloat s = none →
      safe_to_numeric (.str s) = 0) := by
  refine ⟨?_, ?_, ?_, ?_⟩
  · intro e h
    simp [calculate_price_impact, h]
  · intro e h
    cases he : e.PoolPriceTable with
    | none => simp [calculate_price_impact, he]
    | some t => simp [calculate_price_impact, he, h]
  · intro t d a b hmid
    unfold check_direction
    by_cases h : (t.tiers d).isEmpty
    · simp [h]
    · simp [h, check_direction_go_mid_zero t d a b hmid]
  · intro s h16 hd hf
    exact safe_to_numeric_unparseable s h16 hd hf

/-- Witness for C8: a table-less event yields `none`, a zero-reserve event
yields `none`, the zero-mid direction scan of the C7 counterexample event
yields `none`, and an unparseable string coerces to 0. -/
theorem C8_fail_soft_witness :
    calculate_price_impact c8_event = none ∧
    calculate_price_impact { c8_event with PoolPriceTable := some c1_table } = none ∧
    check_direction c7_table .AtoB 100 100 = none ∧
    safe_to_numeric (.str "zz-42") = 0 :=
  ⟨C8_fail_soft.1 c8_event rfl,
   C8_fail_soft.2.1 { c8_event with PoolPriceTable := some c1_table }
     (Or.inl (by norm_num [amountA, c8_event, Liquidity.empty, safe_to_numeric])),
   C8_fail_soft.2.2.1 c7_table .AtoB 100 100
     (by norm_num [PriceTable.mid, PriceTable.midRaw, c7_table, safe_to_numeric]),
   C8_fail_soft.2.2.2 "zz-42" (by decide) (by decide) (by decide)⟩

/-- C5 counterexample: at an event whose bought-side reserve coerces to 0,
`calculate_position_size` returns 0, strictly below the claimed floor
`MIN_POSITION_SIZE * 10^decimals` (here `0.01 * 10^18`), so the claim fails
as stated for arbitrary pool events. -/
theorem C5_counterexample :
    calculate_position_size c5_event 100 Direction.AtoB = 0 ∧
    calculate_position_size c5_event 100 Direction.AtoB <
      MIN_POSITION_SIZE * (10 : ℚ) ^ fadeDecimals c5_event Direction.AtoB := by
  have h0 : calculate_position_size c5_event 100 Direction.AtoB = 0 := by
    norm_num [calculate_position_size, fadeBaseLiquidity, amountB, c5_event,
      safe_to_numeric, AtoB_ne_BtoA]
  refine ⟨h0, ?_⟩
  rw [h0]
  exact mul_pos (by norm_num [MIN_POSITION_SIZE]) (zpow_pos (by norm_num) _)

/-- C5 amended: for every pool event whose bought-side reserve is nonzero
(excluding the zero-reserve case, where the code returns 0), every impact
and every fade direction, the returned size is at least
`MIN_POSITION_SIZE * 10^decimals` of the bought currency. -/
theorem C5_floor :
    ∀ (e : PoolEvent) (impact_bp : ℚ) (fade_direction : Direction),
      fadeBaseLiquidity e fade_direction ≠ 0 →
      MIN_POSITION_SIZE * (10 : ℚ) ^ fadeDecimals e fade_direction ≤
        calculate_position_size e impact_bp fade_direction := by
  intro e i d h
  simp only [calculate_position_size, h, if_false, ite_false]
  exact le_max_right _ _

/-- Witness for the amended C5 at the scenario event. -/
theorem C5_floor_witness :
    MIN_POSITION_SIZE * (10 : ℚ) ^ fadeDecimals c1_event Direction.AtoB ≤
      calculate_position_size c1_event 500 Direction.AtoB :=
  C5_floor c1_event 500 Direction.AtoB
    (by norm_num [fadeBaseLiquidity, amountB, c1_event, safe_to_numeric, AtoB_ne_BtoA])

/-- The impact factor `max(0.1, 1 / (1 + impact_bp / 1000))` is
non-increasing on non-negative impacts. -/
theorem impact_factor_anti {i1 i2 : ℚ} (h0 : 0 ≤ i1) (h12 : i1 ≤ i2) :
    max 0.1 (1 / (1 + i2 / 1000)) ≤ max 0.1 (1 / (1 + i1 / 1000)) := by
  apply max_le_max le_rfl
  apply one_div_le_one_div_of_le
  · have h : (0:ℚ) ≤ i1 / 1000 := div_nonneg h0 (by norm_num)
    linarith
  · linarith

/-- C6: holding the pool event fixed, `calculate_position_size` is
monotonically non-increasing in `impact_bp` on non-negative impacts, and it
returns 0 whenever the bought-side reserve is 0 (amountA for a BtoA fade,
amountB for an AtoB fade). -/
theorem C6_size_monotone :
    (∀ (e : PoolEvent) (d : Direction) (i1 i2 : ℚ), 0 ≤ i1 → i1 ≤ i2 →
      calculate_position_size e i2 d ≤ calculate_position_size e i1 d) ∧
    (∀ (e : PoolEvent) (d : Direction) (i : ℚ),
      fadeBaseLiquidity e d = 0 → calculate_position_size e i d = 0) := by
  constructor
  · intro e d i1 i2 h0 h12
    by_cases hb : fadeBaseLiquidity e d = 0
    · simp [calculate_position_size, hb]
    · simp only [calculate_position_size, hb, if_false, ite_false]
      rcases lt_or_gt_of_ne hb with hneg | hpos
      · have hfloor : (0:ℚ) < MIN_POSITION_SIZE * (10 : ℚ) ^ fadeDecimals e d :=
          mul_pos (by norm_num [MIN_POSITION_SIZE]) (zpow_pos (by norm_num) _)
        have hf2 : (0:ℚ) < max 0.1 (1 / (1 + i2 / 1000)) :=
          lt_of_lt_of_le (by norm_num) (le_max_left _ _)
        have hf1 : (0:ℚ) < max 0.1 (1 / (1 + i1 / 1000)) :=
          lt_of_lt_of_le (by norm_num) (le_max_left _ _)
        have hbr : fadeBaseLiquidity e d * MAX_POSITION_SIZE_RATIO < 0 :=
          mul_neg_of_neg_of_pos hneg (by norm_num [ MAX_POSITION_SIZE_RATIO])
        have hraw2 : fadeBaseLiquidity e d * MAX_POSITION_SIZE_RATIO *
            max 0.1 (1 / (1 + i2 / 1000)) < 0 := mul_neg_of_neg_of_pos hbr hf2
        have hraw1 : fadeBaseLiquidity e d * MAX_POSITION_SIZE_RATIO *
            max 0.1 (1 / (1 + i1 / 1000)) < 0 := mul_neg_of_neg_of_pos hbr hf1
        rw [max_eq_right (le_of_lt (lt_trans hraw2 hfloor)),
          max_eq_right (le_of_lt (lt_trans hraw1 hfloor))]
      · apply max_le_max _ le_rfl
        apply mul_le_mul_of_nonneg_left (impact_factor_anti h0 h12)
        exact mul_nonneg (le_of_lt hpos) (by norm_num [ MAX_POSITION_SIZE_RATIO])
  · intro e d i h
    simp [calculate_position_size, h]

/-- Witness for C6: monotonicity and the zero-reserve case at concrete
inputs. -/
theorem C6_size_monotone_witness :
    calculate_position_size c1_event 200 Direction.AtoB ≤
      calculate_position_size c1_event 100 Direction.AtoB ∧
    calculate_position_size c5_event 100 Direction.AtoB = 0 :=
  ⟨C6_size_monotone.1 c1_event Direction.AtoB 100 200 (by norm_num) (by norm_num),
   C6_size_monotone.2 c5_event Direction.AtoB 100
     (by norm_num [fadeBaseLiquidity, amountB, c5_event, safe_to_numeric, AtoB_ne_BtoA])⟩

/-- C4: `is_isolated_shock` is true exactly when the number of retained
records for the pool with the current direction and age within
FLOW_DETECTION_WINDOW_SECONDS is at most MAX_SAME_DIRECTION_EVENTS; for a
pool with no prior history the first event is always isolated; and (with the
configured MAX_SAME_DIRECTION_EVENTS = 1) a third same-direction event
within the window of the first two is classified persistent. -/
theorem C4_isolation :
    (∀ (hist : FlowHistory) (pid : String) (d : Direction) (t : Int),
      (is_isolated_shock hist pid d t).1 =
        decide (specSameDirectionCount hist pid d t ≤ MAX_SAME_DIRECTION_EVENTS)) ∧
    (∀ (hist : FlowHistory) (pid : String) (d : Direction) (t : Int),
      dlookup hist pid = none → (is_isolated_shock hist pid d t).1 = true) ∧
    (∀ (hist : FlowHistory) (pid : String) (d : Direction) (t1 t2 t3 : Int),
      dlookup hist pid = none → t1 ≤ t2 → t2 ≤ t3 →
      t3 - t1 < FLOW_DETECTION_WINDOW_SECONDS →
      (is_isolated_shock hist pid d t1).1 = true ∧
      (is_isolated_shock (is_isolated_shock hist pid d t1).2 pid d t2).1 = true ∧
      (is_isolated_shock
        (is_isolated_shock (is_isolated_shock hist pid d t1).2 pid d t2).2
        pid d t3).1 = false) := by
  refine ⟨?_, ?_, ?_⟩
  · intro hist pid d t
    simp [is_isolated_shock, specSameDirectionCount, List.filter_filter]
  · intro hist pid d t h
    simp [is_isolated_shock, h, MAX_SAME_DIRECTION_EVENTS]
  · intro hist pid d t1 t2 t3 h hle12 hle23 hwin
    have h21 : t2 - t1 < FLOW_DETECTION_WINDOW_SECONDS := by
      unfold FLOW_DETECTION_WINDOW_SECONDS at hwin ⊢
      omega
    have h32 : t3 - t2 < FLOW_DETECTION_WINDOW_SECONDS := by
      unfold FLOW_DETECTION_WINDOW_SECONDS at hwin ⊢
      omega
    refine ⟨?_, ?_, ?_⟩ <;>
      simp [is_isolated_shock, h, dlookup_dinsert, takeLast, h21, hwin, h32,
        MAX_SAME_DIRECTION_EVENTS]

/-- Witness for C4: three AtoB events for a fresh pool at times 0, 5, 10
with the 30-second window; the first two are isolated, the third is not. -/
theorem C4_isolation_witness :
    (is_isolated_shock [] "p" Direction.AtoB 0).1 = true ∧
    (is_isolated_shock (is_isolated_shock [] "p" Direction.AtoB 0).2
      "p" Direction.AtoB 5).1 = true ∧
    (is_isolated_shock
      (is_isolated_shock (is_isolated_shock [] "p" Direction.AtoB 0).2
        "p" Direction.AtoB 5).2
      "p" Direction.AtoB 10).1 = false :=
  C4_isolation.2.2 [] "p" Direction.AtoB 0 5 10 rfl (by decide) (by decide) (by decide)

/-- C10: `should_fade` never modifies the active-position registry, and for
every event with a non-empty pool id it appends the event's
(direction, time) record to that pool's flow history — unconditionally, so
in particular also when it returns false because an active position already
exists for the pool. -/
theorem C10_flow_history_side_effect :
    ∀ (st : StrategyState) (e : PoolEvent) (i : ℚ × Direction × ℚ),
      ((should_fade st e i).2.active_positions = st.active_positions) ∧
      (poolId e ≠ "" →
        ∃ pre, dlookup (should_fade st e i).2.pool_event_history (poolId e) =
          some (pre ++ [{ direction := i.2.1, time := eventTimeSeconds e }])) := by
  intro st e i
  refine ⟨should_fade_active_unchanged st e i, ?_⟩
  intro hpid
  have hins : (should_fade st e i).2.pool_event_history =
      (is_isolated_shock st.pool_event_history (poolId e) i.2.1
        (eventTimeSeconds e)).2 := by
    by_cases h2 : (is_isolated_shock st.pool_event_history (poolId e) i.2.1
        (eventTimeSeconds e)).1
    · by_cases h3 : (dlookup st.active_positions (poolId e)).isSome <;>
        simp [should_fade, hpid, h2, h3]
    · simp [should_fade, hpid, h2]
  rw [hins]
  obtain ⟨pre, hpre⟩ := takeLast_append_singleton (n := 10) (by norm_num)
    (((dlookup st.pool_event_history (poolId e)).getD []).filter
      (fun ev => decide (eventTimeSeconds e - ev.time < FLOW_DETECTION_WINDOW_SECONDS)))
    ({ direction := i.2.1, time := eventTimeSeconds e } : FlowRecord)
  refine ⟨pre, ?_⟩
  unfold is_isolated_shock
  rw [dlookup_dinsert, if_pos rfl, hpre]

/-- C2: at most one active position per pool. A signal can be produced and
registered by `process_pool_event` only when the registry holds no entry for
the event's pool id; whenever it does hold one, `should_fade` returns false
for every impact triple, no signal is produced, and the registry is left
unchanged. -/
theorem C2_registry_veto :
    ∀ (now : ℚ) (st : StrategyState) (e : PoolEvent),
      (∀ sig, (process_pool_event now st e).1 = some sig →
        dlookup st.active_positions (poolId e) = none) ∧
      ((dlookup st.active_positions (poolId e)).isSome = true →
        (∀ i, (should_fade st e i).1 = false) ∧
        (process_pool_event now st e).1 = none ∧
        (process_pool_event now st e).2.active_positions = st.active_positions) := by
  intro now st e
  have hsf : ∀ i : ℚ × Direction × ℚ,
      (dlookup st.active_positions (poolId e)).isSome = true →
      (should_fade st e i).1 = false := by
    intro i h
    by_cases hpid : poolId e = ""
    · simp [should_fade, hpid]
    · by_cases h2 : (is_isolated_shock st.pool_event_history (poolId e) i.2.1
          (eventTimeSeconds e)).1
      · simp [should_fade, hpid, h2, h]
      · simp [should_fade, hpid, h2]
  have hproc : (dlookup st.active_positions (poolId e)).isSome = true →
      (process_pool_event now st e).1 = none ∧
      (process_pool_event now st e).2.active_positions = st.active_positions := by
    intro h
    by_cases hpid : poolId e = ""
    · simp [process_pool_event, hpid]
    · cases hci : calculate_price_impact e with
      | none => simp [process_pool_event, hpid, hci]
      | some i =>
        have hf := hsf i h
        simp [process_pool_event, hpid, hci, hf, should_fade_active_unchanged]
  constructor
  · intro sig hsig
    cases hl : dlookup st.active_positions (poolId e) with
    | none => rfl
    | some s =>
      exfalso
      have h := (hproc (by simp [hl])).1
      rw [h] at hsig
      exact Option.noConfusion hsig
  · intro h
    exact ⟨fun i => hsf i h, (hproc h).1, (hproc h).2⟩

/-- C3: `monitor_positions` performs only the pending-to-entered
transition. With no registry entry for the event's pool id, or with the
current time before the stored entry time, the registry is unchanged; once
the entry time has passed a pending position becomes entered; and no call
removes a pool id or produces any status other than by the single
pending-to-entered rewrite (in particular none is ever set to closed: the
stop-loss/take-profit evaluation performs no comparison and no close). -/
theorem C3_monitor_transitions :
    ∀ (now : ℚ) (active : List (String × Signal)) (e : PoolEvent),
      (dlookup active (poolId e) = none → monitor_positions now active e = active) ∧
      (∀ s, dlookup active (poolId e) = some s → now < s.entry_time →
        monitor_positions now active e = active) ∧
      (∀ s, dlookup active (poolId e) = some s → s.entry_time ≤ now →
        s.status = "pending" →
        dlookup (monitor_positions now active e) (poolId e) =
          some { s with status := "entered" }) ∧
      (∀ pid, (dlookup (monitor_positions now active e) pid).isSome =
        (dlookup active pid).isSome) ∧
      (∀ pid s2, dlookup (monitor_positions now active e) pid = some s2 →
        dlookup active pid = some s2 ∨
        ∃ s, dlookup active pid = some s ∧ s.status = "pending" ∧
          s2 = { s with status := "entered" }) := by
  intro now active e
  refine ⟨?_, ?_, ?_, ?_, ?_⟩
  · intro h
    simp [monitor_positions, h]
  · intro s h hlt
    simp [monitor_positions, h, hlt]
  · intro s h hge hst
    have hnlt : ¬ now < s.entry_time := not_lt.mpr hge
    simp [monitor_positions, h, hnlt, hst, dlookup_dinsert]
  · intro pid
    cases h : dlookup active (poolId e) with
    | none => simp [monitor_positions, h]
    | some s =>
      by_cases hlt : now < s.entry_time
      · simp [monitor_positions, h, hlt]
      · by_cases hst : s.status = "pending"
        · by_cases hpid : pid = poolId e <;>
            simp [monitor_positions, h, hlt, hst, dlookup_dinsert, hpid]
        · simp [monitor_positions, h, hlt, hst]
  · intro pid s2 h2
    cases h : dlookup active (poolId e) with
    | none =>
      left
      rw [← h2]
      simp [monitor_positions, h]
    | some s =>
      by_cases hlt : now < s.entry_time
      · left
        rw [← h2]
        simp [monitor_positions, h, hlt]
      · by_cases hst : s.status = "pending"
        · rw [show monitor_positions now active e =
              dinsert active (poolId e) { s with status := "entered" } from by
            simp [monitor_positions, h, hlt, hst]] at h2
          rw [dlookup_dinsert] at h2
          by_cases hpid : pid = poolId e
          · rw [if_pos hpid] at h2
            right
            refine ⟨s, ?_, hst, (Option.some.inj h2).symm⟩
            rw [hpid]
            exact h
          · rw [if_neg hpid] at h2
            left
            exact h2
        · left
          rw [← h2]
          simp [monitor_positions, h, hlt, hst]

/-- Witness for C10 at a concrete state that even holds an active position
for the pool (the vetoed case): the registry is untouched and the flow
record for (AtoB, time 0) is appended to pool "p"'s history. -/
theorem C10_flow_history_side_effect_witness :
    (should_fade c2_state c2_pool_event (500, Direction.AtoB, 50)).2.active_positions =
      c2_state.active_positions ∧
    (∃ pre, dlookup (should_fade c2_state c2_pool_event
        (500, Direction.AtoB, 50)).2.pool_event_history "p" =
      some (pre ++ [{ direction := Direction.AtoB, time := 0 }])) :=
  ⟨(C10_flow_history_side_effect c2_state c2_pool_event (500, Direction.AtoB, 50)).1,
   (C10_flow_history_side_effect c2_state c2_pool_event (500, Direction.AtoB, 50)).2
     (by decide)⟩

/-- Witness for C2 at a concrete state holding an active position for pool
"p": `should_fade` yields false and no signal is produced. -/
theorem C2_registry_veto_witness :
    (should_fade c2_state c2_pool_event (500, Direction.AtoB, 50)).1 = false ∧
    (process_pool_event 0 c2_state c2_pool_event).1 = none ∧
    (process_pool_event 0 c2_state c2_pool_event).2.active_positions =
      c2_state.active_positions :=
  ⟨((C2_registry_veto 0 c2_state c2_pool_event).2 rfl).1 (500, Direction.AtoB, 50),
   ((C2_registry_veto 0 c2_state c2_pool_event).2 rfl).2.1,
   ((C2_registry_veto 0 c2_state c2_pool_event).2 rfl).2.2⟩

/-- Witness for C3: a pending position for pool "p" with entry time 5 is
rewritten to status entered at time 10. -/
theorem C3_monitor_transitions_witness :
    dlookup (monitor_positions 10 [("p", c3_signal)] c3_event) "p" =
      some { c3_signal with status := "entered" } :=
  (C3_monitor_transitions 10 [("p", c3_signal)] c3_event).2.2.1 c3_signal rfl
    (by norm_num [c3_signal]) rfl

/-- C9: numeric string coercion follows the per-field-class attempt order.
For a hex-first field the all-hex-digits string "a" parses to its hex value
10; for a decimal-first field the decimal parse comes first, so "12.5"
parses to the float 12.5; and a string every parse attempt rejects is left
as the original string by the decoder and then coerces to 0 in
`safe_to_numeric` (no exception: the functions are total). -/
theorem C9_coercion_order :
    convertHexFirstField "a" = PyVal.int 10 ∧
    convertDecimalFirstField "12.5" = PyVal.float (12.5 : ℚ) ∧
    (∀ s, pyIntBase16 s = none → pyInt s = none → pyFloat s = none →
      convertHexFirstField s = PyVal.str s ∧
      convertDecimalFirstField s = PyVal.str s ∧
      safe_to_numeric (PyVal.str s) = 0) := by
  refine ⟨by decide, ?_, ?_⟩
  · have hdot : containsDot "12.5" = true := by decide
    have h1 : pyFloat "12.5" = some (((12 : ℕ) : ℚ) + ((5 : ℕ) : ℚ) / 10 ^ 1) := rfl
    simp only [convertDecimalFirstField, hdot, if_true, ite_true, h1]
    norm_num
  · intro s h16 hd hf
    refine ⟨?_, ?_, safe_to_numeric_unparseable s h16 hd hf⟩
    · by_cases hdot : containsDot s <;>
        simp [convertHexFirstField, h16, hd, hf, hdot]
    · by_cases hdot : containsDot s <;>
        simp [convertDecimalFirstField, h16, hd, hf, hdot]

/-- Witness for C9's universal part at a concrete unparseable string. -/
theorem C9_coercion_order_witness :
    convertHexFirstField "pool" = PyVal.str "pool" ∧
    convertDecimalFirstField "pool" = PyVal.str "pool" ∧
    safe_to_numeric (PyVal.str "pool") = 0 :=
  C9_coercion_order.2.2 "pool" (by decide) (by decide) (by decide)

end AmmFade
